import Mathlib

/-
Verification of the type-conversion subsystem of the Multicorn repository
(`multicorn/corns/extensers/typeextenser.py`), as a shallow embedding in Lean.

The Python code is Python 2: `unicode` and `basestring` are builtins, `str` is a
byte string.  In the embedding, Python values are the inductive `Multicorn.Value`;
Python exceptions are the inductive `Multicorn.PyError` together with `Except`;
Python dicts are association lists with `dictGet` / `dictSet` (assignment to an
existing key replaces in place, otherwise appends, as CPython dicts do).
`datetime.datetime.strptime` is embedded faithfully to CPython's `_strptime`
implementation: each format directive compiles to a regex alternation that is
tried in order with backtracking, the match need not consume the whole string,
and a partial match raises the "unconverted data remains" error.
-/

namespace Multicorn

/-- Python exceptions raised by this subsystem.  All constructors except
`keyError` and `nameError` are `ValueError`s in Python; they are kept apart so
that theorems can tell the explicitly raised coercion messages from the errors
that propagate out of `strptime`, `int()` and the `datetime` constructor. -/
inductive PyError where
  | valueError (msg : String)
  | strptimeNoMatch (data : String) (format : String)
  | strptimeUnconverted (remaining : String)
  | dateRangeError (msg : String)
  | intParseError (literal : String)
  | keyError (msg : String)
  | nameError (msg : String)
deriving DecidableEq

/-- Python's `"%+03i" % n`: mandatory sign, zero-padded to width 3 (sign included). -/
def fmtSigned3 (n : Int) : String :=
  (if n < 0 then "-" else "+") ++
    (if n.natAbs < 10 then "0" ++ toString n.natAbs else toString n.natAbs)

/-- Python's `"%02i" % n`: zero-padded to width 2; wider numbers print in full. -/
def fmtMin2 (n : Int) : String :=
  if 0 ≤ n ∧ n < 10 then "0" ++ toString n.natAbs else toString n

/-- Embedding of class `FixedOffsetTimeZone(datetime.tzinfo)`.  `__init__` stores
`timedelta(hours=offset_hours, minutes=offset_minutes)` (kept here in minutes)
and the display name `"UTC%+03i:%02i" % (offset_hours, offset_minutes)`. -/
structure FixedOffsetTimeZone where
  offset : Int
  zoneName : String
deriving DecidableEq

def FixedOffsetTimeZone.init (offset_hours offset_minutes : Int) : FixedOffsetTimeZone :=
  FixedOffsetTimeZone.mk (offset_hours * 60 + offset_minutes)
    ("UTC" ++ fmtSigned3 offset_hours ++ ":" ++ fmtMin2 offset_minutes)

/-- `utcoffset` ignores its argument and returns the stored offset (in minutes). -/
def FixedOffsetTimeZone.utcoffset {α : Type} (tz : FixedOffsetTimeZone) (_ : α) : Int :=
  tz.offset

/-- `tzname` ignores its argument and returns the stored display name. -/
def FixedOffsetTimeZone.tzname {α : Type} (tz : FixedOffsetTimeZone) (_ : α) : String :=
  tz.zoneName

/-- `dst` ignores its argument and returns `timedelta(0)`. -/
def FixedOffsetTimeZone.dst {α : Type} (_ : FixedOffsetTimeZone) (_ : α) : Int :=
  0

/-- Embedding of `datetime.date` values (always a valid calendar date in Python). -/
structure PyDate where
  year : Nat
  month : Nat
  day : Nat
deriving DecidableEq

/-- Embedding of `datetime.datetime` values: naive when `tzinfo` is `Option.none`. -/
structure PyDatetime where
  year : Nat
  month : Nat
  day : Nat
  hour : Nat
  minute : Nat
  second : Nat
  tzinfo : Option FixedOffsetTimeZone
deriving DecidableEq

/-- Python 2 values that can reach the cast functions.  `str` is a Python 2 byte
string and `unicode` a text string; both are modelled as Lean strings (byte
strings that are not valid text are outside the model).  `float` and `decimal`
carry a rational `num / 10 ^ exp`: only construction success and zero-ness of
these matter to the code under verification, never float rounding. -/
inductive Value where
  | pyNone
  | bool (b : Bool)
  | int (n : Int)
  | float (num : Int) (exp : Nat)
  | decimal (num : Int) (exp : Nat)
  | str (s : String)
  | unicode (s : String)
  | date (d : PyDate)
  | datetime (dt : PyDatetime)
deriving DecidableEq

def pad2 (n : Nat) : String :=
  if n < 10 then "0" ++ toString n else toString n

def pad4 (n : Nat) : String :=
  if n < 10 then "000" ++ toString n
  else if n < 100 then "00" ++ toString n
  else if n < 1000 then "0" ++ toString n
  else toString n

/-- Python's `"%s" % value` for the values above.  The rendering of the
`float`/`decimal` model rationals is simplified (they never appear in any claim). -/
def pyStr : Value → String
  | Value.pyNone => "None"
  | Value.bool b => if b then "True" else "False"
  | Value.int n => toString n
  | Value.float num exp => toString num ++ "E-" ++ toString exp
  | Value.decimal num exp => toString num ++ "E-" ++ toString exp
  | Value.str s => s
  | Value.unicode s => s
  | Value.date d => pad4 d.year ++ "-" ++ pad2 d.month ++ "-" ++ pad2 d.day
  | Value.datetime dt =>
      pad4 dt.year ++ "-" ++ pad2 dt.month ++ "-" ++ pad2 dt.day ++ " " ++
        pad2 dt.hour ++ ":" ++ pad2 dt.minute ++ ":" ++ pad2 dt.second

/-- Gregorian leap year, as implemented by CPython's `datetime` module. -/
def isLeapYear (y : Nat) : Bool :=
  (y % 4 = 0 && y % 100 ≠ 0) || y % 400 = 0

def daysInMonth (y m : Nat) : Nat :=
  if m = 2 then (if isLeapYear y then 29 else 28)
  else if m = 4 ∨ m = 6 ∨ m = 9 ∨ m = 11 then 30
  else 31

/-- The `datetime.datetime(...)` constructor with its range validation (this is
where `strptime` fails on a well-shaped but impossible date). -/
def mkPyDatetime (y mo d hh mi ss : Nat) (tz : Option FixedOffsetTimeZone) :
    Except PyError PyDatetime :=
  if y < 1 ∨ 9999 < y then Except.error (PyError.dateRangeError "year is out of range")
  else if mo < 1 ∨ 12 < mo then Except.error (PyError.dateRangeError "month must be in 1..12")
  else if d < 1 ∨ daysInMonth y mo < d then
    Except.error (PyError.dateRangeError "day is out of range for month")
  else if 23 < hh then Except.error (PyError.dateRangeError "hour must be in 0..23")
  else if 59 < mi then Except.error (PyError.dateRangeError "minute must be in 0..59")
  else if 59 < ss then Except.error (PyError.dateRangeError "second must be in 0..59")
  else Except.ok (PyDatetime.mk y mo d hh mi ss tz)

/-- Digit value of an ASCII character (only used under a digit-range guard). -/
def dv (c : Char) : Nat := c.toNat - 48

/-- Candidates of CPython's `%m` regex `(1[0-2]|0[1-9]|[1-9])` on a char list, in
the order the regex engine tries them; each is (value, rest of the input). -/
def monthMatches : List Char → List (Nat × List Char)
  | a :: b :: rest =>
      (if a.toNat = 49 ∧ 48 ≤ b.toNat ∧ b.toNat ≤ 50 then [(10 + dv b, rest)] else []) ++
      (if a.toNat = 48 ∧ 49 ≤ b.toNat ∧ b.toNat ≤ 57 then [(dv b, rest)] else []) ++
      (if 49 ≤ a.toNat ∧ a.toNat ≤ 57 then [(dv a, b :: rest)] else [])
  | [a] => if 49 ≤ a.toNat ∧ a.toNat ≤ 57 then [(dv a, [])] else []
  | [] => []

/-- Candidates of `%d` `(3[01]|[12]\d|0[1-9]|[1-9])`, in regex order. -/
def dayMatches : List Char → List (Nat × List Char)
  | a :: b :: rest =>
      (if a.toNat = 51 ∧ 48 ≤ b.toNat ∧ b.toNat ≤ 49 then [(30 + dv b, rest)] else []) ++
      (if (a.toNat = 49 ∨ a.toNat = 50) ∧ 48 ≤ b.toNat ∧ b.toNat ≤ 57 then
        [(dv a * 10 + dv b, rest)] else []) ++
      (if a.toNat = 48 ∧ 49 ≤ b.toNat ∧ b.toNat ≤ 57 then [(dv b, rest)] else []) ++
      (if 49 ≤ a.toNat ∧ a.toNat ≤ 57 then [(dv a, b :: rest)] else [])
  | [a] => if 49 ≤ a.toNat ∧ a.toNat ≤ 57 then [(dv a, [])] else []
  | [] => []

/-- Candidates of `%H` `(2[0-3]|[0-1]\d|\d)`, in regex order. -/
def hourMatches : List Char → List (Nat × List Char)
  | a :: b :: rest =>
      (if a.toNat = 50 ∧ 48 ≤ b.toNat ∧ b.toNat ≤ 51 then [(20 + dv b, rest)] else []) ++
      (if (a.toNat = 48 ∨ a.toNat = 49) ∧ 48 ≤ b.toNat ∧ b.toNat ≤ 57 then
        [(dv a * 10 + dv b, rest)] else []) ++
      (if 48 ≤ a.toNat ∧ a.toNat ≤ 57 then [(dv a, b :: rest)] else [])
  | [a] => if 48 ≤ a.toNat ∧ a.toNat ≤ 57 then [(dv a, [])] else []
  | [] => []

/-- Candidates of `%M` `([0-5]\d|\d)`, in regex order. -/
def minuteMatches : List Char → List (Nat × List Char)
  | a :: b :: rest =>
      (if 48 ≤ a.toNat ∧ a.toNat ≤ 53 ∧ 48 ≤ b.toNat ∧ b.toNat ≤ 57 then
        [(dv a * 10 + dv b, rest)] else []) ++
      (if 48 ≤ a.toNat ∧ a.toNat ≤ 57 then [(dv a, b :: rest)] else [])
  | [a] => if 48 ≤ a.toNat ∧ a.toNat ≤ 57 then [(dv a, [])] else []
  | [] => []

/-- Candidates of `%S` `(6[0-1]|[0-5]\d|\d)`, in regex order. -/
def secondMatches : List Char → List (Nat × List Char)
  | a :: b :: rest =>
      (if a.toNat = 54 ∧ 48 ≤ b.toNat ∧ b.toNat ≤ 49 then [(60 + dv b, rest)] else []) ++
      (if 48 ≤ a.toNat ∧ a.toNat ≤ 53 ∧ 48 ≤ b.toNat ∧ b.toNat ≤ 57 then
        [(dv a * 10 + dv b, rest)] else []) ++
      (if 48 ≤ a.toNat ∧ a.toNat ≤ 57 then [(dv a, b :: rest)] else [])
  | [a] => if 48 ≤ a.toNat ∧ a.toNat ≤ 57 then [(dv a, [])] else []
  | [] => []

/-- First candidate on which `f` succeeds: this is how the regex engine combines
an ordered alternation with the rest of the pattern (backtracking). -/
def firstSome {α β : Type} (f : α → Option β) : List α → Option β
  | [] => Option.none
  | a :: l =>
      match f a with
      | Option.some b => Option.some b
      | Option.none => firstSome f l

/-- Match of `%m%d` against a prefix of the input with backtracking; the pattern
ends after `%d`, so the first day candidate wins and any remainder is left over. -/
def matchYmd (cs : List Char) : Option (Nat × Nat × List Char) :=
  firstSome (fun mp =>
    match dayMatches mp.2 with
    | [] => Option.none
    | q :: _ => Option.some (mp.1, q.1, q.2)) (monthMatches cs)

/-- Match of `%m%d%H%M%S` against a prefix of the input with backtracking. -/
def matchYmdHMS (cs : List Char) : Option (Nat × Nat × Nat × Nat × Nat × List Char) :=
  firstSome (fun mp =>
    firstSome (fun dp =>
      firstSome (fun hp =>
        firstSome (fun np =>
          match secondMatches np.2 with
          | [] => Option.none
          | sp :: _ => Option.some (mp.1, dp.1, hp.1, np.1, sp.1, sp.2))
          (minuteMatches hp.2))
        (hourMatches dp.2))
      (dayMatches mp.2))
    (monthMatches cs)

/-- `_strptime` for format `"%Y%m%d"`: `%Y` is exactly four digits, then `%m%d`;
a match that leaves input over raises "unconverted data remains". -/
def strptimeYmdMatch (cs : List Char) : Except PyError (Nat × Nat × Nat) :=
  match cs with
  | c1 :: c2 :: c3 :: c4 :: rest =>
      if (48 ≤ c1.toNat ∧ c1.toNat ≤ 57) ∧ (48 ≤ c2.toNat ∧ c2.toNat ≤ 57) ∧
          (48 ≤ c3.toNat ∧ c3.toNat ≤ 57) ∧ (48 ≤ c4.toNat ∧ c4.toNat ≤ 57) then
        match matchYmd rest with
        | Option.some (mo, d, remaining) =>
            if remaining.isEmpty then
              Except.ok (dv c1 * 1000 + dv c2 * 100 + dv c3 * 10 + dv c4, mo, d)
            else Except.error (PyError.strptimeUnconverted (String.mk remaining))
        | Option.none => Except.error (PyError.strptimeNoMatch (String.mk cs) "%Y%m%d")
      else Except.error (PyError.strptimeNoMatch (String.mk cs) "%Y%m%d")
  | _ => Except.error (PyError.strptimeNoMatch (String.mk cs) "%Y%m%d")

/-- `_strptime` for format `"%Y%m%d%H%M%S"`. -/
def strptimeYmdHMSMatch (cs : List Char) :
    Except PyError (Nat × Nat × Nat × Nat × Nat × Nat) :=
  match cs with
  | c1 :: c2 :: c3 :: c4 :: rest =>
      if (48 ≤ c1.toNat ∧ c1.toNat ≤ 57) ∧ (48 ≤ c2.toNat ∧ c2.toNat ≤ 57) ∧
          (48 ≤ c3.toNat ∧ c3.toNat ≤ 57) ∧ (48 ≤ c4.toNat ∧ c4.toNat ≤ 57) then
        match matchYmdHMS rest with
        | Option.some (mo, d, hh, mi, ss, remaining) =>
            if remaining.isEmpty then
              Except.ok (dv c1 * 1000 + dv c2 * 100 + dv c3 * 10 + dv c4, mo, d, hh, mi, ss)
            else Except.error (PyError.strptimeUnconverted (String.mk remaining))
        | Option.none => Except.error (PyError.strptimeNoMatch (String.mk cs) "%Y%m%d%H%M%S")
      else Except.error (PyError.strptimeNoMatch (String.mk cs) "%Y%m%d%H%M%S")
  | _ => Except.error (PyError.strptimeNoMatch (String.mk cs) "%Y%m%d%H%M%S")

/-- `datetime.datetime.strptime(value, "%Y%m%d")`: regex match, then construction. -/
def strptimeDatetimeYmd (cs : List Char) : Except PyError PyDatetime :=
  match strptimeYmdMatch cs with
  | Except.error e => Except.error e
  | Except.ok (y, mo, d) => mkPyDatetime y mo d 0 0 0 Option.none

/-- `datetime.datetime.strptime(value, "%Y%m%d%H%M%S")`. -/
def strptimeDatetimeYmdHMS (cs : List Char) : Except PyError PyDatetime :=
  match strptimeYmdHMSMatch cs with
  | Except.error e => Except.error e
  | Except.ok (y, mo, d, hh, mi, ss) => mkPyDatetime y mo d hh mi ss Option.none

/-- Python's whitespace test, used by `int()` and `float()` before parsing. -/
def trimSpaces (cs : List Char) : List Char :=
  ((cs.dropWhile (fun c => decide (c.toNat = 32 ∨ (9 ≤ c.toNat ∧ c.toNat ≤ 13)))).reverse.dropWhile
    (fun c => decide (c.toNat = 32 ∨ (9 ≤ c.toNat ∧ c.toNat ≤ 13)))).reverse

def digitsToNatAux : List Char → Nat → Option Nat
  | [], acc => Option.some acc
  | c :: rest, acc =>
      if 48 ≤ c.toNat ∧ c.toNat ≤ 57 then digitsToNatAux rest (acc * 10 + (c.toNat - 48))
      else Option.none

/-- Python 2's `int(string)`: optional surrounding whitespace, optional sign,
then a nonempty run of decimal digits; anything else raises `ValueError`. -/
def pyIntOfChars (cs : List Char) : Option Int :=
  match trimSpaces cs with
  | [] => Option.none
  | c :: rest =>
      if c.toNat = 43 then
        (if rest.isEmpty then Option.none else Option.map Int.ofNat (digitsToNatAux rest 0))
      else if c.toNat = 45 then
        (if rest.isEmpty then Option.none
         else Option.map (fun n => -(Int.ofNat n)) (digitsToNatAux rest 0))
      else Option.map Int.ofNat (digitsToNatAux (c :: rest) 0)

/-- The character filter of `value.replace("-", "").replace(":", "")`. -/
def stripDateSeps (cs : List Char) : List Char :=
  cs.filter (fun c => decide (c.toNat ≠ 45 ∧ c.toNat ≠ 58))

/-- The character filter of `value.replace("-", "").replace(":", "").replace("T", "")`. -/
def stripDatetimeSeps (cs : List Char) : List Char :=
  cs.filter (fun c => decide (c.toNat ≠ 45 ∧ c.toNat ≠ 58 ∧ c.toNat ≠ 84))

def endsWithZ (cs : List Char) : Bool :=
  match cs.getLast? with
  | Option.some c => decide (c.toNat = 90)
  | Option.none => false

/-- The string branch of `to_datetime` (the `isinstance(value, basestring)` arm).
`value` is only passed along for the final error message. -/
def to_datetimeString (value : Value) (raw : List Char) : Except PyError PyDatetime :=
  let v := stripDatetimeSeps raw
  if v.length = 8 then strptimeDatetimeYmd v
  else if v.length = 14 then strptimeDatetimeYmdHMS v
  else
    let v2 := if v.length = 15 ∧ endsWithZ v = true then v.dropLast ++ ("+0000").data else v
    if v2.length = 19 then
      let time := v2.take 14
      let timezone := v2.drop 14
      let hours := timezone.take 2
      let minutes := timezone.drop 2
      match strptimeDatetimeYmdHMS time with
      | Except.error e => Except.error e
      | Except.ok dt =>
          match pyIntOfChars hours with
          | Option.none => Except.error (PyError.intParseError (String.mk hours))
          | Option.some h =>
              match pyIntOfChars minutes with
              | Option.none => Except.error (PyError.intParseError (String.mk minutes))
              | Option.some mi =>
                  Except.ok (PyDatetime.mk dt.year dt.month dt.day dt.hour dt.minute dt.second
                    (Option.some (FixedOffsetTimeZone.init h mi)))
    else Except.error (PyError.valueError (pyStr value ++ " cannot be cast to datetime."))

/-- Embedding of `to_datetime`.  `datetime` instances pass through, `date`
instances are promoted to midnight, strings go through separator stripping and
the length dispatch, everything else raises the coercion `ValueError`. -/
def to_datetime (value : Value) : Except PyError PyDatetime :=
  match value with
  | Value.datetime dt => Except.ok dt
  | Value.date d => Except.ok (PyDatetime.mk d.year d.month d.day 0 0 0 Option.none)
  | Value.str s => to_datetimeString value s.data
  | Value.unicode s => to_datetimeString value s.data
  | _ => Except.error (PyError.valueError (pyStr value ++ " cannot be cast to datetime."))

/-- Embedding of `to_date`.  Note that for strings the code returns
`datetime.datetime.strptime(value, "%Y%m%d").date()` directly, so a malformed
string propagates `strptime`'s own error, never the "cannot be cast" message. -/
def to_date (value : Value) : Except PyError PyDate :=
  match value with
  | Value.datetime dt => Except.ok (PyDate.mk dt.year dt.month dt.day)
  | Value.date d => Except.ok d
  | Value.str s =>
      match strptimeDatetimeYmd (stripDateSeps s.data) with
      | Except.error e => Except.error e
      | Except.ok dt => Except.ok (PyDate.mk dt.year dt.month dt.day)
  | Value.unicode s =>
      match strptimeDatetimeYmd (stripDateSeps s.data) with
      | Except.error e => Except.error e
      | Except.ok dt => Except.ok (PyDate.mk dt.year dt.month dt.day)
  | _ => Except.error (PyError.valueError (pyStr value ++ " cannot be cast to date."))

/-- The `try: unicode(value, encoding) / except: unicode(value)` step of
`to_unicode`.  In the model `str` already holds decoded text, so decoding is the
identity; for non-string values the fallback `unicode(value)` stringifies. -/
def pyUnicodeOf (value : Value) (_encoding : String) : String :=
  match value with
  | Value.str s => s
  | _ => pyStr value

/-- Embedding of `to_unicode`.  Values of type `unicode` are returned unchanged
(no normalization).  For every other value the code computes the decoded or
stringified text and then evaluates `unicodedata.normalize("NFC", string)` — but
the module never imports `unicodedata`, so that name lookup raises `NameError`
before any normalization can happen. -/
def to_unicode (value : Value) (encoding : String) : Except PyError Value :=
  match value with
  | Value.unicode _ => Except.ok value
  | _ =>
      let _string := pyUnicodeOf value encoding
      Except.error (PyError.nameError "global name unicodedata is not defined")

/-- The numeric types that `to_number` is instantiated at in the converter
registry: `int`, `float` and `decimal.Decimal`. -/
inductive PyNumType where
  | int
  | float
  | decimal
deriving DecidableEq

/-- Python's `type.__name__` for the numeric types. -/
def PyNumType.pyName : PyNumType → String
  | PyNumType.int => "int"
  | PyNumType.float => "float"
  | PyNumType.decimal => "Decimal"

/-- `isinstance(value, data_type)` for the numeric types.  In Python 2 `bool` is
a subclass of `int`, so `True` and `False` are instances of `int`. -/
def isinstanceNum : Value → PyNumType → Bool
  | Value.int _, PyNumType.int => true
  | Value.bool _, PyNumType.int => true
  | Value.float _ _, PyNumType.float => true
  | Value.decimal _ _, PyNumType.decimal => true
  | _, _ => false

/-- Python truthiness (`not value` is the negation of this). -/
def isTruthy : Value → Bool
  | Value.pyNone => false
  | Value.bool b => b
  | Value.int n => decide (n ≠ 0)
  | Value.float num _ => decide (num ≠ 0)
  | Value.decimal num _ => decide (num ≠ 0)
  | Value.str s => decide (s ≠ "")
  | Value.unicode s => decide (s ≠ "")
  | Value.date _ => true
  | Value.datetime _ => true

/-- `data_type(0)`: the numeric zero of each type. -/
def numZero : PyNumType → Value
  | PyNumType.int => Value.int 0
  | PyNumType.float => Value.float 0 0
  | PyNumType.decimal => Value.decimal 0 0

/-- Leading sign of a numeric literal. -/
def parseSign : List Char → Int × List Char
  | c :: rest =>
      if c.toNat = 43 then (1, rest)
      else if c.toNat = 45 then (-1, rest)
      else (1, c :: rest)
  | [] => (1, [])

/-- Consume a run of digits: (value, number of digits, rest). -/
def takeDigits : List Char → Nat × Nat × List Char
  | c :: rest =>
      if 48 ≤ c.toNat ∧ c.toNat ≤ 57 then
        let r := takeDigits rest
        ((c.toNat - 48) * 10 ^ r.2.1 + r.1, r.2.1 + 1, r.2.2)
      else (0, 0, c :: rest)
  | [] => (0, 0, [])

/-- The exponent suffix of a float literal; result is `(num, exp)` denoting
`num / 10 ^ exp`. -/
def parseExpSuffix (sign : Int) (mant : Nat) (frac : Nat) (cs : List Char) :
    Option (Int × Nat) :=
  let es := parseSign cs
  let ed := takeDigits es.2
  if ed.2.1 = 0 then Option.none
  else
    match ed.2.2 with
    | [] =>
        if es.1 = 1 then Option.some (sign * Int.ofNat (mant * 10 ^ ed.1), frac)
        else Option.some (sign * Int.ofNat mant, frac + ed.1)
    | _ => Option.none

/-- Decimal literal grammar shared by `float(string)` and `Decimal(string)`:
optional sign, digits with an optional point (at least one digit in total) and
an optional exponent.  The special values `inf`/`nan` are outside the model. -/
def parseFloatBody (cs : List Char) : Option (Int × Nat) :=
  let s := parseSign cs
  let d1 := takeDigits s.2
  match d1.2.2 with
  | [] => if d1.2.1 = 0 then Option.none else Option.some (s.1 * Int.ofNat d1.1, 0)
  | c :: rest =>
      if c.toNat = 46 then
        let d2 := takeDigits rest
        if d1.2.1 + d2.2.1 = 0 then Option.none
        else
          match d2.2.2 with
          | [] => Option.some (s.1 * Int.ofNat (d1.1 * 10 ^ d2.2.1 + d2.1), d2.2.1)
          | e :: erest =>
              if e.toNat = 101 ∨ e.toNat = 69 then
                parseExpSuffix s.1 (d1.1 * 10 ^ d2.2.1 + d2.1) d2.2.1 erest
              else Option.none
      else if (c.toNat = 101 ∨ c.toNat = 69) ∧ d1.2.1 ≠ 0 then
        parseExpSuffix s.1 d1.1 0 rest
      else Option.none

/-- Truncation toward zero of the model rational `num / 10 ^ exp` (`int(float)`). -/
def ratTrunc (num : Int) (exp : Nat) : Int :=
  Int.tdiv num (Int.ofNat (10 ^ exp))

/-- Direct construction `data_type(value)` attempted by `to_type`, for the
numeric types; `Option.none` means the construction raised (any exception: the
source catches with a bare `except:`).  `float(string)` strips whitespace,
`Decimal(string)` does not (Python 2.7), and `Decimal(float)` is a `TypeError`. -/
def numConstruct : PyNumType → Value → Option Value
  | PyNumType.int, Value.str s => Option.map Value.int (pyIntOfChars s.data)
  | PyNumType.int, Value.unicode s => Option.map Value.int (pyIntOfChars s.data)
  | PyNumType.int, Value.float num exp => Option.some (Value.int (ratTrunc num exp))
  | PyNumType.int, Value.decimal num exp => Option.some (Value.int (ratTrunc num exp))
  | PyNumType.int, Value.bool b => Option.some (Value.int (if b then 1 else 0))
  | PyNumType.int, Value.int n => Option.some (Value.int n)
  | PyNumType.float, Value.str s =>
      Option.map (fun p => Value.float p.1 p.2) (parseFloatBody (trimSpaces s.data))
  | PyNumType.float, Value.unicode s =>
      Option.map (fun p => Value.float p.1 p.2) (parseFloatBody (trimSpaces s.data))
  | PyNumType.float, Value.int n => Option.some (Value.float n 0)
  | PyNumType.float, Value.bool b => Option.some (Value.float (if b then 1 else 0) 0)
  | PyNumType.float, Value.decimal num exp => Option.some (Value.float num exp)
  | PyNumType.float, Value.float num exp => Option.some (Value.float num exp)
  | PyNumType.decimal, Value.str s =>
      Option.map (fun p => Value.decimal p.1 p.2) (parseFloatBody s.data)
  | PyNumType.decimal, Value.unicode s =>
      Option.map (fun p => Value.decimal p.1 p.2) (parseFloatBody s.data)
  | PyNumType.decimal, Value.int n => Option.some (Value.decimal n 0)
  | PyNumType.decimal, Value.bool b => Option.some (Value.decimal (if b then 1 else 0) 0)
  | PyNumType.decimal, Value.decimal num exp => Option.some (Value.decimal num exp)
  | _, _ => Option.none

/-- Embedding of `to_type` at the numeric types: already-instance or `None`
passes through, otherwise direct construction, and on any construction failure
the `ValueError` naming the value and `data_type.__name__`. -/
def to_type (value : Value) (data_type : PyNumType) : Except PyError Value :=
  if isinstanceNum value data_type = true ∨ value = Value.pyNone then Except.ok value
  else
    match numConstruct data_type value with
    | Option.some v => Except.ok v
    | Option.none =>
        Except.error (PyError.valueError
          (pyStr value ++ " cannot be cast to " ++ PyNumType.pyName data_type ++ "."))

/-- Embedding of `to_number`. -/
def to_number (value : Value) (data_type : PyNumType) : Except PyError Value :=
  if isinstanceNum value data_type = true ∨ value = Value.pyNone then Except.ok value
  else if isTruthy value = false then Except.ok (numZero data_type)
  else to_type value data_type

/-- The Python type objects used as keys of the converter registry.  `custom`
stands for any further type object a caller might use. -/
inductive PyType where
  | unicode
  | bytes
  | int
  | float
  | decimal
  | datetime
  | date
  | bool
  | dict
  | object
  | custom (n : Nat)
deriving DecidableEq

/-- A short rendering of a registry key for the `KeyError` it raises when absent. -/
def PyType.keyRepr : PyType → String
  | PyType.unicode => "unicode"
  | PyType.bytes => "bytes"
  | PyType.int => "int"
  | PyType.float => "float"
  | PyType.decimal => "Decimal"
  | PyType.datetime => "datetime"
  | PyType.date => "date"
  | PyType.bool => "bool"
  | PyType.dict => "dict"
  | PyType.object => "object"
  | PyType.custom n => "customtype " ++ toString n

/-- The conversion functions stored in the registry and in bindings, as named
function values (Python compares and stores them by identity).  The tags name
the functions of the source; `custom` stands for caller-supplied callables. -/
inductive ConvFun where
  | to_unicode
  | to_bytes
  | to_number_int
  | to_number_float
  | to_number_decimal
  | to_datetime
  | to_date
  | bool_ctor
  | dict_ctor
  | identity
  | custom (n : Nat)
deriving DecidableEq

/-- The `Converter` namedtuple: a (down, up) pair. -/
structure Converter where
  down : ConvFun
  up : ConvFun
deriving DecidableEq

/-- Modelled from the spec: the class `Type` of `multicorn/requests/types.py` is
imported but not under `src/`.  The spec's data model gives a Property the
attributes `name`, a declared type and an owner, and requires binding-table keys
to be unique per property, so `Type` is modelled as a value object compared by
those three attributes (the owning corn is identified by its name). -/
structure PropType where
  corn : String
  type : PyType
  name : String
deriving DecidableEq

/-- The wrapped data source, reduced to the only part the conversion layer
consults: its mapping from property name to property descriptor. -/
structure Corn where
  properties : List (String × PropType)
deriving DecidableEq

/-- Lookup in a CPython dict modelled as an association list without duplicate keys. -/
def dictGet {α β : Type} [DecidableEq α] : List (α × β) → α → Option β
  | [], _ => Option.none
  | (k, v) :: rest, key => if k = key then Option.some v else dictGet rest key

/-- Assignment `d[key] = val`: replaces in place when the key exists, else appends. -/
def dictSet {α β : Type} [DecidableEq α] : List (α × β) → α → β → List (α × β)
  | [], key, val => [(key, val)]
  | (k, v) :: rest, key, val =>
      if k = key then (key, val) :: rest else (k, v) :: dictSet rest key val

/-- `d.update(u)`: assign every pair of `u` into `d` in order. -/
def dictUpdate {α β : Type} [DecidableEq α] (d u : List (α × β)) : List (α × β) :=
  u.foldl (fun acc kv => dictSet acc kv.1 kv.2) d

/-- The class attribute `TypeExtenser.default_converters`. -/
def default_converters : List (PyType × ConvFun) :=
  [(PyType.unicode, ConvFun.to_unicode),
   (PyType.bytes, ConvFun.to_bytes),
   (PyType.int, ConvFun.to_number_int),
   (PyType.float, ConvFun.to_number_float),
   (PyType.decimal, ConvFun.to_number_decimal),
   (PyType.datetime, ConvFun.to_datetime),
   (PyType.date, ConvFun.to_date),
   (PyType.bool, ConvFun.bool_ctor),
   (PyType.dict, ConvFun.dict_ctor),
   (PyType.object, ConvFun.identity)]

/-- The state of a `TypeExtenser` instance. -/
structure TypeExtenser where
  name : String
  wrapped_corn : Corn
  converters : List (PyType × ConvFun)
  properties : List (String × PropType)
  named_convertors : List (PropType × Converter)
deriving DecidableEq

/-- `TypeExtenser.__init__`: copy of the default converter table updated with the
caller's overrides, and an empty binding table.  Modelled from the spec for the
part inherited from `AbstractCornExtenser` (not under `src/`): the constructor
stores the name and the wrapped corn and starts with an empty property set
("copies no properties from the wrapped source automatically"). -/
def mkTypeExtenser (name : String) (wrapped_corn : Corn)
    (type_converters : List (PyType × ConvFun)) : TypeExtenser :=
  TypeExtenser.mk name wrapped_corn (dictUpdate default_converters type_converters) [] []

/-- Embedding of `TypeExtenser.register`.  Python raises exceptions mid-method,
so the result is the post-state paired with the exception if one was raised:
mutations made before the raise are visible in the returned state.  The binding
is keyed by `self.properties[name]`, which line 253 has just set to the freshly
built `Type(corn=self, type=type, name=name)`. -/
def register (self : TypeExtenser) (name : String) (type : PyType)
    (custom_down custom_up : Option ConvFun) : TypeExtenser × Option PyError :=
  match dictGet self.wrapped_corn.properties name with
  | Option.none =>
      (self, Option.some (PyError.keyError
        "Cannot register a type converter for nonexistent property"))
  | Option.some wrapped_prop =>
      let new_prop := PropType.mk self.name type name
      let self1 := TypeExtenser.mk self.name self.wrapped_corn self.converters
        (dictSet self.properties name new_prop) self.named_convertors
      let down_resolved : Option ConvFun :=
        match custom_down with
        | Option.some c => Option.some c
        | Option.none => dictGet self1.converters wrapped_prop.type
      match down_resolved with
      | Option.none => (self1, Option.some (PyError.keyError (PyType.keyRepr wrapped_prop.type)))
      | Option.some down_converter =>
          let up_resolved : Option ConvFun :=
            match custom_up with
            | Option.some c => Option.some c
            | Option.none => dictGet self1.converters type
          match up_resolved with
          | Option.none => (self1, Option.some (PyError.keyError (PyType.keyRepr type)))
          | Option.some up_converter =>
              (TypeExtenser.mk self1.name self1.wrapped_corn self1.converters self1.properties
                (dictSet self1.named_convertors new_prop
                  (Converter.mk down_converter up_converter)),
               Option.none)

/-- A wrapped corn with a text property `"x"` and a property `"y"` whose declared
type has no entry in the default converter registry. -/
def sampleCorn : Corn :=
  Corn.mk [("x", PropType.mk "wrapped" PyType.unicode "x"),
           ("y", PropType.mk "wrapped" (PyType.custom 0) "y")]

/-- The errors that can propagate out of `strptime(...)` / the `datetime`
constructor, as opposed to the explicitly raised coercion `ValueError`s: none of
these mention the target domain name `"date"`. -/
def isStrptimeFamilyError : PyError → Bool
  | PyError.strptimeNoMatch _ _ => true
  | PyError.strptimeUnconverted _ => true
  | PyError.dateRangeError _ => true
  | _ => false

/-- C1 (code bug): on `"2010-08-04T20:34:31+02:30"` the claim expects a fixed
offset of +2h30m (150 minutes) and the display name `"UTC+02:30"`; the code
slices the five-character signed offset `"+0230"` as `[:2]`/`[2:]`, so it builds
`FixedOffsetTimeZone(0, 230)`: a 230-minute (3h50m) offset named `"UTC+00:230"`. -/
theorem C1_datetime_offset_parse_bug :
    to_datetime (Value.str "2010-08-04T20:34:31+02:30") =
      Except.ok (PyDatetime.mk 2010 8 4 20 34 31
        (Option.some (FixedOffsetTimeZone.init 0 230))) ∧
    (FixedOffsetTimeZone.init 0 230).utcoffset Value.pyNone = 230 ∧
    (FixedOffsetTimeZone.init 0 230).utcoffset Value.pyNone ≠ 150 ∧
    (FixedOffsetTimeZone.init 0 230).tzname Value.pyNone = "UTC+00:230" ∧
    ("UTC+00:230" : String) ≠ "UTC+02:30" := by
  refine ⟨rfl, rfl, by decide, by decide, by decide⟩

/-- C3 (code bug): `to_unicode` never imports `unicodedata`, so for any value
that is not already of type `unicode` — for example the Python 2 byte string
`"spam"` that the function's own doctests exercise — it raises `NameError`
instead of returning decoded, NFC-normalized text; and a value already of type
`unicode` is returned unchanged, with no normalization applied at all. -/
theorem C3_to_unicode_missing_import :
    to_unicode (Value.str "spam") "utf-8" =
      Except.error (PyError.nameError "global name unicodedata is not defined") ∧
    to_unicode (Value.unicode "é") "utf-8" = Except.ok (Value.unicode "é") := by
  exact ⟨rfl, rfl⟩

/-- C4 (confirmed): the two `Z`-suffixed spellings normalize to the same
19-character string and parse to identical datetimes carrying
`FixedOffsetTimeZone(0, 0)`, whose `utcoffset` is zero — hence equal instants
with a zero-offset zone. -/
theorem C4_datetime_utc_z_equal :
    to_datetime (Value.str "2010-08-04T20:34:31Z") =
      to_datetime (Value.str "20100804-203431Z") ∧
    to_datetime (Value.str "2010-08-04T20:34:31Z") =
      Except.ok (PyDatetime.mk 2010 8 4 20 34 31
        (Option.some (FixedOffsetTimeZone.init 0 0))) ∧
    (FixedOffsetTimeZone.init 0 0).utcoffset Value.pyNone = 0 := by
  refine ⟨rfl, rfl, rfl⟩

/-- C10 (confirmed): `utcoffset` and `dst` ignore their argument, `dst` is the
zero duration, `utcoffset` is the signed sum `offset_hours * 60 + offset_minutes`
minutes, and the display name is formatted from the two constructor arguments
independently of that sum — at `(-2, 30)` the real offset is -90 minutes (-1h30m)
while the name `"UTC-02:30"` reads as -150 minutes. -/
theorem C10_fixed_offset_time_zone :
    (∀ (h m : Int) (x : Value), (FixedOffsetTimeZone.init h m).dst x = 0) ∧
    (∀ (h m : Int) (x y : Value),
        (FixedOffsetTimeZone.init h m).utcoffset x = h * 60 + m ∧
        (FixedOffsetTimeZone.init h m).utcoffset x = (FixedOffsetTimeZone.init h m).utcoffset y ∧
        (FixedOffsetTimeZone.init h m).tzname x = (FixedOffsetTimeZone.init h m).tzname y ∧
        (FixedOffsetTimeZone.init h m).tzname x =
          "UTC" ++ fmtSigned3 h ++ ":" ++ fmtMin2 m) ∧
    (FixedOffsetTimeZone.init (-2) 30).utcoffset Value.pyNone = -90 ∧
    (FixedOffsetTimeZone.init (-2) 30).tzname Value.pyNone = "UTC-02:30" ∧
    ((-90 : Int) ≠ -150) := by
  refine ⟨fun h m x => rfl, fun h m x y => ⟨rfl, rfl, rfl, rfl⟩, rfl, by decide, by decide⟩

theorem firstSome_eq_some {α β : Type} (f : α → Option β) :
    ∀ (l : List α) (b : β), firstSome f l = Option.some b →
      ∃ a, a ∈ l ∧ f a = Option.some b := by
  intro l
  induction l with
  | nil => intro b h; simp [firstSome] at h
  | cons a l ih =>
      intro b h
      simp only [firstSome] at h
      cases hfa : f a with
      | some c =>
          rw [hfa] at h
          simp only [] at h
          exact ⟨a, List.mem_cons_self a l, by rw [hfa, h]⟩
      | none =>
          rw [hfa] at h
          simp only [] at h
          obtain ⟨x, hx, hfx⟩ := ih b h
          exact ⟨x, List.mem_cons_of_mem a hx, hfx⟩

theorem monthMatches_consume : ∀ (cs : List Char) (v : Nat) (r : List Char),
    (v, r) ∈ monthMatches cs → cs.length = r.length + 1 ∨ cs.length = r.length + 2 := by
  intro cs v r hp
  rcases cs with _ | ⟨a, _ | ⟨b, rest⟩⟩
  · simp [monthMatches] at hp
  · simp only [monthMatches] at hp
    split at hp
    · rw [List.mem_singleton, Prod.mk.injEq] at hp
      obtain ⟨hv, hr⟩ := hp
      subst hr
      simp
    · exact absurd hp (List.not_mem_nil _)
  · simp only [monthMatches, List.mem_append] at hp
    rcases hp with (hp | hp) | hp <;> split at hp <;>
      first
        | (rw [List.mem_singleton, Prod.mk.injEq] at hp;
           obtain ⟨hv, hr⟩ := hp; subst hr; simp)
        | exact absurd hp (List.not_mem_nil _)

theorem dayMatches_consume : ∀ (cs : List Char) (v : Nat) (r : List Char),
    (v, r) ∈ dayMatches cs → cs.length = r.length + 1 ∨ cs.length = r.length + 2 := by
  intro cs v r hp
  rcases cs with _ | ⟨a, _ | ⟨b, rest⟩⟩
  · simp [dayMatches] at hp
  · simp only [dayMatches] at hp
    split at hp
    · rw [List.mem_singleton, Prod.mk.injEq] at hp
      obtain ⟨hv, hr⟩ := hp
      subst hr
      simp
    · exact absurd hp (List.not_mem_nil _)
  · simp only [dayMatches, List.mem_append] at hp
    rcases hp with ((hp | hp) | hp) | hp <;> split at hp <;>
      first
        | (rw [List.mem_singleton, Prod.mk.injEq] at hp;
           obtain ⟨hv, hr⟩ := hp; subst hr; simp)
        | exact absurd hp (List.not_mem_nil _)

theorem matchYmd_consume (cs : List Char) (mo d : Nat) (rem : List Char)
    (h : matchYmd cs = Option.some (mo, d, rem)) :
    rem.length + 2 ≤ cs.length ∧ cs.length ≤ rem.length + 4 := by
  obtain ⟨mp, hmp, hf⟩ := firstSome_eq_some _ _ _ h
  cases hd : dayMatches mp.2 with
  | nil => rw [hd] at hf; simp at hf
  | cons q t =>
      rw [hd] at hf
      simp only [Option.some.injEq, Prod.mk.injEq] at hf
      obtain ⟨h1, h2, h3⟩ := hf
      have hq : (q.1, q.2) ∈ dayMatches mp.2 := by
        rw [Prod.mk.eta, hd]
        exact List.mem_cons_self q t
      have hm := monthMatches_consume cs mp.1 mp.2 (by rw [Prod.mk.eta]; exact hmp)
      have hdc := dayMatches_consume mp.2 q.1 q.2 hq
      rw [h3] at hdc
      rcases hm with hm | hm <;> rcases hdc with hdc | hdc <;> omega

theorem strptimeYmdMatch_length (cs : List Char) (y mo d : Nat)
    (h : strptimeYmdMatch cs = Except.ok (y, mo, d)) :
    6 ≤ cs.length ∧ cs.length ≤ 8 := by
  rcases cs with _ | ⟨c1, _ | ⟨c2, _ | ⟨c3, _ | ⟨c4, rest⟩⟩⟩⟩ <;>
    simp only [strptimeYmdMatch] at h
  · exact Except.noConfusion h
  · exact Except.noConfusion h
  · exact Except.noConfusion h
  · exact Except.noConfusion h
  · split at h
    · cases hm : matchYmd rest with
      | none => rw [hm] at h; exact Except.noConfusion h
      | some trip =>
          obtain ⟨mo2, d2, rem⟩ := trip
          rw [hm] at h
          dsimp only at h
          split at h
          · rename_i hrem
            rw [List.isEmpty_iff] at hrem
            subst hrem
            have hcons := matchYmd_consume rest mo2 d2 [] hm
            simp only [List.length_cons, List.length_nil] at hcons ⊢
            omega
          · exact Except.noConfusion h
    · exact Except.noConfusion h

theorem strptimeYmdMatch_error_family (cs : List Char) (e : PyError)
    (h : strptimeYmdMatch cs = Except.error e) : isStrptimeFamilyError e = true := by
  rcases cs with _ | ⟨c1, _ | ⟨c2, _ | ⟨c3, _ | ⟨c4, rest⟩⟩⟩⟩ <;>
    simp only [strptimeYmdMatch] at h
  · injection h with h1; subst h1; rfl
  · injection h with h1; subst h1; rfl
  · injection h with h1; subst h1; rfl
  · injection h with h1; subst h1; rfl
  · split at h
    · cases hm : matchYmd rest with
      | none => rw [hm] at h; dsimp only at h; injection h with h1; subst h1; rfl
      | some trip =>
          obtain ⟨mo2, d2, rem⟩ := trip
          rw [hm] at h
          dsimp only at h
          split at h
          · exact Except.noConfusion h
          · injection h with h1; subst h1; rfl
    · injection h with h1; subst h1; rfl

theorem mkPyDatetime_error_family (y mo d hh mi ss : Nat)
    (tz : Option FixedOffsetTimeZone) (e : PyError)
    (h : mkPyDatetime y mo d hh mi ss tz = Except.error e) :
    isStrptimeFamilyError e = true := by
  unfold mkPyDatetime at h
  split at h
  · injection h with h1; subst h1; rfl
  · split at h
    · injection h with h1; subst h1; rfl
    · split at h
      · injection h with h1; subst h1; rfl
      · split at h
        · injection h with h1; subst h1; rfl
        · split at h
          · injection h with h1; subst h1; rfl
          · split at h
            · injection h with h1; subst h1; rfl
            · exact Except.noConfusion h

theorem strptimeDatetimeYmd_error_family (cs : List Char) (e : PyError)
    (h : strptimeDatetimeYmd cs = Except.error e) : isStrptimeFamilyError e = true := by
  unfold strptimeDatetimeYmd at h
  cases hm : strptimeYmdMatch cs with
  | error e2 =>
      rw [hm] at h
      dsimp only at h
      injection h with h1
      subst h1
      exact strptimeYmdMatch_error_family cs e2 hm
  | ok trip =>
      obtain ⟨y, mo, d⟩ := trip
      rw [hm] at h
      dsimp only at h
      exact mkPyDatetime_error_family y mo d 0 0 0 Option.none e h

theorem strptimeDatetimeYmd_ok_match (cs : List Char) (dt : PyDatetime)
    (h : strptimeDatetimeYmd cs = Except.ok dt) :
    ∃ y mo d, strptimeYmdMatch cs = Except.ok (y, mo, d) := by
  unfold strptimeDatetimeYmd at h
  cases hm : strptimeYmdMatch cs with
  | error e => rw [hm] at h; exact Except.noConfusion h
  | ok trip =>
      obtain ⟨y, mo, d⟩ := trip
      exact ⟨y, mo, d, rfl⟩

theorem monthMatches_two (a b : Char) (r : List Char) (mo : Nat)
    (ha : 48 ≤ a.toNat ∧ a.toNat ≤ 57) (hb : 48 ≤ b.toNat ∧ b.toNat ≤ 57)
    (hmo : mo = dv a * 10 + dv b) (h1 : 1 ≤ mo) (h2 : mo ≤ 12) :
    ∃ t, monthMatches (a :: b :: r) = (mo, r) :: t := by
  simp only [dv] at hmo
  rcases Nat.lt_or_ge a.toNat 49 with h49 | h49
  · have ha0 : a.toNat = 48 := by omega
    have hb1 : 49 ≤ b.toNat := by omega
    refine ⟨[], ?_⟩
    simp only [monthMatches]
    rw [if_neg (by omega : ¬(a.toNat = 49 ∧ 48 ≤ b.toNat ∧ b.toNat ≤ 50))]
    rw [if_pos ⟨ha0, hb1, hb.2⟩]
    rw [if_neg (by omega : ¬(49 ≤ a.toNat ∧ a.toNat ≤ 57))]
    have : dv b = mo := by simp only [dv]; omega
    rw [this]
    rfl
  · have ha1 : a.toNat = 49 := by omega
    have hb2 : b.toNat ≤ 50 := by omega
    refine ⟨[(dv a, b :: r)], ?_⟩
    simp only [monthMatches]
    rw [if_pos ⟨ha1, hb.1, hb2⟩]
    rw [if_neg (by omega : ¬(a.toNat = 48 ∧ 49 ≤ b.toNat ∧ b.toNat ≤ 57))]
    rw [if_pos (⟨h49, ha.2⟩ : 49 ≤ a.toNat ∧ a.toNat ≤ 57)]
    have : 10 + dv b = mo := by simp only [dv]; omega
    rw [this]
    rfl

theorem dayMatches_two (a b : Char) (r : List Char) (d : Nat)
    (ha : 48 ≤ a.toNat ∧ a.toNat ≤ 57) (hb : 48 ≤ b.toNat ∧ b.toNat ≤ 57)
    (hd : d = dv a * 10 + dv b) (h1 : 1 ≤ d) (h2 : d ≤ 31) :
    ∃ t, dayMatches (a :: b :: r) = (d, r) :: t := by
  simp only [dv] at hd
  have ha3 : a.toNat ≤ 51 := by omega
  rcases Nat.lt_or_ge a.toNat 49 with h49 | h49
  · have ha0 : a.toNat = 48 := by omega
    have hb1 : 49 ≤ b.toNat := by omega
    refine ⟨[], ?_⟩
    simp only [dayMatches]
    rw [if_neg (by omega : ¬(a.toNat = 51 ∧ 48 ≤ b.toNat ∧ b.toNat ≤ 49))]
    rw [if_neg (by omega : ¬((a.toNat = 49 ∨ a.toNat = 50) ∧ 48 ≤ b.toNat ∧ b.toNat ≤ 57))]
    rw [if_pos ⟨ha0, hb1, hb.2⟩]
    rw [if_neg (by omega : ¬(49 ≤ a.toNat ∧ a.toNat ≤ 57))]
    have : dv b = d := by simp only [dv]; omega
    rw [this]
    rfl
  · rcases Nat.lt_or_ge a.toNat 51 with h51 | h51
    · have ha12 : a.toNat = 49 ∨ a.toNat = 50 := by omega
      refine ⟨[(dv a, b :: r)], ?_⟩
      simp only [dayMatches]
      rw [if_neg (by omega : ¬(a.toNat = 51 ∧ 48 ≤ b.toNat ∧ b.toNat ≤ 49))]
      rw [if_pos ⟨ha12, hb⟩]
      rw [if_neg (by omega : ¬(a.toNat = 48 ∧ 49 ≤ b.toNat ∧ b.toNat ≤ 57))]
      rw [if_pos (⟨h49, ha.2⟩ : 49 ≤ a.toNat ∧ a.toNat ≤ 57)]
      have : dv a * 10 + dv b = d := by simp only [dv]; omega
      rw [this]
      rfl
    · have ha51 : a.toNat = 51 := by omega
      have hb1 : b.toNat ≤ 49 := by omega
      refine ⟨[(dv a, b :: r)], ?_⟩
      simp only [dayMatches]
      rw [if_pos ⟨ha51, hb.1, hb1⟩]
      rw [if_neg (by omega : ¬((a.toNat = 49 ∨ a.toNat = 50) ∧ 48 ≤ b.toNat ∧ b.toNat ≤ 57))]
      rw [if_neg (by omega : ¬(a.toNat = 48 ∧ 49 ≤ b.toNat ∧ b.toNat ≤ 57))]
      rw [if_pos (⟨h49, ha.2⟩ : 49 ≤ a.toNat ∧ a.toNat ≤ 57)]
      have : 30 + dv b = d := by simp only [dv]; omega
      rw [this]
      rfl

theorem matchYmd_valid (c5 c6 c7 c8 : Char) (mo d : Nat)
    (h5 : 48 ≤ c5.toNat ∧ c5.toNat ≤ 57) (h6 : 48 ≤ c6.toNat ∧ c6.toNat ≤ 57)
    (h7 : 48 ≤ c7.toNat ∧ c7.toNat ≤ 57) (h8 : 48 ≤ c8.toNat ∧ c8.toNat ≤ 57)
    (hmo : mo = dv c5 * 10 + dv c6) (hd : d = dv c7 * 10 + dv c8)
    (hm1 : 1 ≤ mo) (hm2 : mo ≤ 12) (hd1 : 1 ≤ d) (hd2 : d ≤ 31) :
    matchYmd [c5, c6, c7, c8] = Option.some (mo, d, []) := by
  obtain ⟨t, hmt⟩ := monthMatches_two c5 c6 [c7, c8] mo h5 h6 hmo hm1 hm2
  obtain ⟨t2, hdt⟩ := dayMatches_two c7 c8 [] d h7 h8 hd hd1 hd2
  unfold matchYmd
  rw [hmt]
  simp only [firstSome]
  rw [hdt]

theorem daysInMonth_le_31 (y m : Nat) : daysInMonth y m ≤ 31 := by
  unfold daysInMonth
  split
  · split <;> omega
  · split <;> omega

/-- C2 (counterexample): `to_date` accepts `"2010-8-4"`, whose stripped form
`"201084"` has six characters, not eight — refuting "accepted if and only if it
is exactly the 8-character pattern YYYYMMDD". -/
theorem C2_counterexample :
    to_date (Value.str "2010-8-4") = Except.ok (PyDate.mk 2010 8 4) ∧
    (stripDateSeps ("2010-8-4").data).length = 6 ∧ (6 : Nat) ≠ 8 := by
  refine ⟨rfl, rfl, by decide⟩

/-- C2 (amended): after stripping `-` and `:`, a string accepted by `to_date`
has a stripped length of 6 to 8 characters (Python's `%Y%m%d` pattern: exactly
four year digits, then a one-or-two-digit month and day), not exactly 8; every
8-character all-digit string whose month, day and year are in range is accepted,
parsed as `YYYYMMDD`; and a string that fails never gets an error naming the
target domain `"date"` — it propagates one of `strptime`'s own errors (no-match,
unconverted data, or the `datetime` constructor's range error). -/
theorem C2_amended :
    (∀ (s : String) (d : PyDate), to_date (Value.str s) = Except.ok d →
        6 ≤ (stripDateSeps s.data).length ∧ (stripDateSeps s.data).length ≤ 8) ∧
    (∀ (s : String) (e : PyError), to_date (Value.str s) = Except.error e →
        isStrptimeFamilyError e = true) ∧
    (∀ (s : String) (c1 c2 c3 c4 c5 c6 c7 c8 : Char) (y mo d : Nat),
        stripDateSeps s.data = [c1, c2, c3, c4, c5, c6, c7, c8] →
        48 ≤ c1.toNat ∧ c1.toNat ≤ 57 → 48 ≤ c2.toNat ∧ c2.toNat ≤ 57 →
        48 ≤ c3.toNat ∧ c3.toNat ≤ 57 → 48 ≤ c4.toNat ∧ c4.toNat ≤ 57 →
        48 ≤ c5.toNat ∧ c5.toNat ≤ 57 → 48 ≤ c6.toNat ∧ c6.toNat ≤ 57 →
        48 ≤ c7.toNat ∧ c7.toNat ≤ 57 → 48 ≤ c8.toNat ∧ c8.toNat ≤ 57 →
        y = dv c1 * 1000 + dv c2 * 100 + dv c3 * 10 + dv c4 →
        mo = dv c5 * 10 + dv c6 → d = dv c7 * 10 + dv c8 →
        1 ≤ y → 1 ≤ mo → mo ≤ 12 → 1 ≤ d → d ≤ daysInMonth y mo →
        to_date (Value.str s) = Except.ok (PyDate.mk y mo d)) := by
  refine ⟨?_, ?_, ?_⟩
  · intro s d h
    simp only [to_date] at h
    cases hm : strptimeDatetimeYmd (stripDateSeps s.data) with
    | error e => rw [hm] at h; exact Except.noConfusion h
    | ok dt =>
        obtain ⟨y, mo, dd, hmatch⟩ := strptimeDatetimeYmd_ok_match _ dt hm
        exact strptimeYmdMatch_length _ y mo dd hmatch
  · intro s e h
    simp only [to_date] at h
    cases hm : strptimeDatetimeYmd (stripDateSeps s.data) with
    | error e2 =>
        rw [hm] at h
        dsimp only at h
        injection h with h1
        subst h1
        exact strptimeDatetimeYmd_error_family _ _ hm
    | ok dt => rw [hm] at h; exact Except.noConfusion h
  · intro s c1 c2 c3 c4 c5 c6 c7 c8 y mo d hstrip h1 h2 h3 h4 h5 h6 h7 h8 hy hmo
      hd hy1 hm1 hm2 hd1 hd2
    have hy9999 : y ≤ 9999 := by
      simp only [dv] at hy
      omega
    have hmatch : strptimeYmdMatch [c1, c2, c3, c4, c5, c6, c7, c8] =
        Except.ok (y, mo, d) := by
      simp only [strptimeYmdMatch]
      rw [if_pos ⟨h1, h2, h3, h4⟩]
      rw [matchYmd_valid c5 c6 c7 c8 mo d h5 h6 h7 h8 hmo hd hm1 hm2 hd1
        (le_trans hd2 (daysInMonth_le_31 y mo))]
      dsimp only
      rw [← hy]
      rfl
    simp only [to_date]
    rw [hstrip]
    unfold strptimeDatetimeYmd
    rw [hmatch]
    dsimp only
    unfold mkPyDatetime
    rw [if_neg (by omega : ¬(y < 1 ∨ 9999 < y))]
    rw [if_neg (by omega : ¬(mo < 1 ∨ 12 < mo))]
    rw [if_neg (by omega : ¬(d < 1 ∨ daysInMonth y mo < d))]
    rw [if_neg (by omega : ¬(23 < 0))]
    rw [if_neg (by omega : ¬(59 < 0))]
    rw [if_neg (by omega : ¬(59 < 0))]

/-- Witness for `C2_amended`: its three parts applied at the concrete inputs
`"2010-8-4"` (accepted, stripped length 6), `"spam"` (fails with `strptime`'s
no-match error, in the strptime family) and `"2010-08-04"` (a valid
8-digit date, accepted). -/
theorem C2_amended_witness :
    (6 ≤ (stripDateSeps ("2010-8-4").data).length ∧
      (stripDateSeps ("2010-8-4").data).length ≤ 8) ∧
    isStrptimeFamilyError (PyError.strptimeNoMatch "spam" "%Y%m%d") = true ∧
    to_date (Value.str "2010-08-04") = Except.ok (PyDate.mk 2010 8 4) :=
  ⟨C2_amended.1 "2010-8-4" (PyDate.mk 2010 8 4) rfl,
   C2_amended.2.1 "spam" (PyError.strptimeNoMatch "spam" "%Y%m%d") rfl,
   C2_amended.2.2 "2010-08-04" (Char.ofNat 50) (Char.ofNat 48) (Char.ofNat 49)
     (Char.ofNat 48) (Char.ofNat 48) (Char.ofNat 56) (Char.ofNat 48) (Char.ofNat 52)
     2010 8 4 rfl
     (by decide) (by decide) (by decide) (by decide) (by decide) (by decide)
     (by decide) (by decide) (by decide) (by decide) (by decide)
     (by decide) (by decide) (by decide) (by decide) (by decide)⟩

/-- C5 (confirmed): `to_number` returns the value unchanged when it is already
an instance of the numeric type or is `None`; returns the numeric zero when the
value is falsy but not `None` (in particular `to_number("", int) == 0`);
otherwise delegates to `to_type`, whose failure is the `ValueError` naming the
value and the type name — concretely `to_number("eggs", float)` fails with
"eggs cannot be cast to float.". -/
theorem C5_to_number_behavior :
    (∀ (v : Value) (T : PyNumType), isinstanceNum v T = true →
        to_number v T = Except.ok v) ∧
    (∀ T : PyNumType, to_number Value.pyNone T = Except.ok Value.pyNone) ∧
    (∀ (v : Value) (T : PyNumType), isinstanceNum v T = false → v ≠ Value.pyNone →
        isTruthy v = false → to_number v T = Except.ok (numZero T)) ∧
    (∀ (v : Value) (T : PyNumType), isinstanceNum v T = false → v ≠ Value.pyNone →
        isTruthy v = true → to_number v T = to_type v T) ∧
    (∀ (v : Value) (T : PyNumType), isinstanceNum v T = false → v ≠ Value.pyNone →
        numConstruct T v = Option.none →
        to_type v T = Except.error (PyError.valueError
          (pyStr v ++ " cannot be cast to " ++ PyNumType.pyName T ++ "."))) ∧
    to_number (Value.str "") PyNumType.int = Except.ok (Value.int 0) ∧
    to_number Value.pyNone PyNumType.int = Except.ok Value.pyNone ∧
    to_number (Value.str "eggs") PyNumType.float =
      Except.error (PyError.valueError "eggs cannot be cast to float.") := by
  refine ⟨?_, ?_, ?_, ?_, ?_, rfl, rfl, rfl⟩
  · intro v T h
    simp [to_number, h]
  · intro T
    simp [to_number]
  · intro v T h1 h2 h3
    simp [to_number, h1, h2, h3]
  · intro v T h1 h2 h3
    simp [to_number, h1, h2, h3]
  · intro v T h1 h2 h3
    simp [to_type, h1, h2, h3]

/-- Witness for `C5_to_number_behavior`: the universally quantified parts applied
at concrete inputs with every hypothesis discharged. -/
theorem C5_witness :
    to_number (Value.int 7) PyNumType.int = Except.ok (Value.int 7) ∧
    to_number Value.pyNone PyNumType.float = Except.ok Value.pyNone ∧
    to_number (Value.unicode "") PyNumType.float = Except.ok (Value.float 0 0) ∧
    to_number (Value.str "12") PyNumType.int = Except.ok (Value.int 12) ∧
    to_type (Value.str "spam") PyNumType.int =
      Except.error (PyError.valueError "spam cannot be cast to int.") :=
  ⟨C5_to_number_behavior.1 (Value.int 7) PyNumType.int rfl,
   C5_to_number_behavior.2.1 PyNumType.float,
   C5_to_number_behavior.2.2.1 (Value.unicode "") PyNumType.float rfl
     (by decide) rfl,
   Eq.trans
     (C5_to_number_behavior.2.2.2.1 (Value.str "12") PyNumType.int rfl (by decide) rfl)
     rfl,
   C5_to_number_behavior.2.2.2.2.1 (Value.str "spam") PyNumType.int rfl
     (by decide) rfl⟩

theorem dictGet_dictSet_self {α β : Type} [DecidableEq α] (d : List (α × β)) (k : α) (v : β) :
    dictGet (dictSet d k v) k = Option.some v := by
  induction d with
  | nil => simp [dictSet, dictGet]
  | cons kv rest ih =>
      obtain ⟨k2, v2⟩ := kv
      simp only [dictSet]
      split
      · simp [dictGet]
      · rename_i h
        simp only [dictGet]
        rw [if_neg h]
        exact ih

/-- Characterization of a successful `register` call: some resolved pair
`(dc, uc)` was stored, the new property declaration was added, and nothing else
changed. -/
theorem register_ok (E : TypeExtenser) (name : String) (t : PyType)
    (cd cu : Option ConvFun) (E2 : TypeExtenser)
    (h : register E name t cd cu = (E2, Option.none)) :
    ∃ dc uc,
      E2 = TypeExtenser.mk E.name E.wrapped_corn E.converters
        (dictSet E.properties name (PropType.mk E.name t name))
        (dictSet E.named_convertors (PropType.mk E.name t name) (Converter.mk dc uc)) := by
  unfold register at h
  cases hw : dictGet E.wrapped_corn.properties name with
  | none =>
      rw [hw] at h
      dsimp only at h
      injection h with h1 h2
      exact absurd h2 (by simp)
  | some wp =>
      rw [hw] at h
      dsimp only at h
      cases hcd : (match cd with
        | Option.some c => Option.some c
        | Option.none => dictGet E.converters wp.type) with
      | none =>
          rw [hcd] at h
          dsimp only at h
          injection h with h1 h2
          exact absurd h2 (by simp)
      | some dc =>
          rw [hcd] at h
          dsimp only at h
          cases hcu : (match cu with
            | Option.some c => Option.some c
            | Option.none => dictGet E.converters t) with
          | none =>
              rw [hcu] at h
              dsimp only at h
              injection h with h1 h2
              exact absurd h2 (by simp)
          | some uc =>
              rw [hcu] at h
              dsimp only at h
              injection h with h1 h2
              exact ⟨dc, uc, h1.symm⟩

/-- C6 (confirmed): when the name is not among the wrapped corn's properties,
`register` raises the "nonexistent property" `KeyError` before any mutation, so
the whole returned state — in particular the property set and the binding
table — is exactly the input state. -/
theorem C6_register_unknown_property :
    ∀ (E : TypeExtenser) (name : String) (t : PyType) (cd cu : Option ConvFun),
      dictGet E.wrapped_corn.properties name = Option.none →
      register E name t cd cu =
        (E, Option.some (PyError.keyError
          "Cannot register a type converter for nonexistent property")) := by
  intro E name t cd cu h
  unfold register
  rw [h]

/-- Witness for `C6_register_unknown_property` at a concrete decorator and a
name absent from the wrapped corn. -/
theorem C6_witness :
    register (mkTypeExtenser "ext" sampleCorn []) "missing" PyType.int
        Option.none Option.none =
      (mkTypeExtenser "ext" sampleCorn [],
       Option.some (PyError.keyError
         "Cannot register a type converter for nonexistent property")) :=
  C6_register_unknown_property (mkTypeExtenser "ext" sampleCorn []) "missing"
    PyType.int Option.none Option.none rfl

/-- C8 (confirmed): in a successful `register(name, type, custom_down,
custom_up)` call, the stored down-converter is `custom_down` when given and
otherwise the registry entry for the wrapped corn's declared type of `name`, and
the stored up-converter is `custom_up` when given and otherwise the registry
entry for `type`; the pair is stored under the newly declared property. -/
theorem C8_register_converter_resolution :
    ∀ (E : TypeExtenser) (name : String) (t : PyType) (cd cu : Option ConvFun)
      (wp : PropType) (dc uc : ConvFun),
      dictGet E.wrapped_corn.properties name = Option.some wp →
      (match cd with
       | Option.some c => Option.some c
       | Option.none => dictGet E.converters wp.type) = Option.some dc →
      (match cu with
       | Option.some c => Option.some c
       | Option.none => dictGet E.converters t) = Option.some uc →
      (register E name t cd cu).2 = Option.none ∧
      dictGet (register E name t cd cu).1.named_convertors (PropType.mk E.name t name) =
        Option.some (Converter.mk dc uc) := by
  intro E name t cd cu wp dc uc hw hd hu
  unfold register
  rw [hw]
  dsimp only
  rw [hd]
  dsimp only
  rw [hu]
  dsimp only
  exact ⟨rfl, dictGet_dictSet_self E.named_convertors (PropType.mk E.name t name)
    (Converter.mk dc uc)⟩

/-- Witness for `C8_register_converter_resolution`: registering `"x"` (declared
`unicode` in the wrapped corn) as `datetime` with a custom down-converter stores
the custom function down and the registry's `to_datetime` up. -/
theorem C8_witness :
    (register (mkTypeExtenser "ext" sampleCorn []) "x" PyType.datetime
        (Option.some (ConvFun.custom 5)) Option.none).2 = Option.none ∧
    dictGet (register (mkTypeExtenser "ext" sampleCorn []) "x" PyType.datetime
        (Option.some (ConvFun.custom 5)) Option.none).1.named_convertors
      (PropType.mk "ext" PyType.datetime "x") =
      Option.some (Converter.mk (ConvFun.custom 5) ConvFun.to_datetime) :=
  C8_register_converter_resolution (mkTypeExtenser "ext" sampleCorn []) "x"
    PyType.datetime (Option.some (ConvFun.custom 5)) Option.none
    (PropType.mk "wrapped" PyType.unicode "x") (ConvFun.custom 5) ConvFun.to_datetime
    rfl rfl rfl

/-- C9 (confirmed): when the wrapped property exists but the registry has no
entry for its declared type and no custom down-converter was supplied, `register`
raises the registry `KeyError` only after line 253 has already added the new
property declaration: the returned state has the mutated property set and an
unchanged binding table. -/
theorem C9_register_nonatomic :
    ∀ (E : TypeExtenser) (name : String) (t : PyType) (cu : Option ConvFun)
      (wp : PropType),
      dictGet E.wrapped_corn.properties name = Option.some wp →
      dictGet E.converters wp.type = Option.none →
      (register E name t Option.none cu).2 =
        Option.some (PyError.keyError (PyType.keyRepr wp.type)) ∧
      (register E name t Option.none cu).1.properties =
        dictSet E.properties name (PropType.mk E.name t name) ∧
      (register E name t Option.none cu).1.named_convertors = E.named_convertors := by
  intro E name t cu wp hw hconv
  unfold register
  rw [hw]
  dsimp only
  rw [hconv]
  exact ⟨rfl, rfl, rfl⟩

/-- Witness for `C9_register_nonatomic`: property `"y"` of the sample corn has
declared type `custom 0`, absent from the default registry. -/
theorem C9_witness :
    (register (mkTypeExtenser "ext" sampleCorn []) "y" PyType.int
        Option.none Option.none).2 =
      Option.some (PyError.keyError (PyType.keyRepr (PyType.custom 0))) ∧
    (register (mkTypeExtenser "ext" sampleCorn []) "y" PyType.int
        Option.none Option.none).1.properties =
      dictSet (mkTypeExtenser "ext" sampleCorn []).properties "y"
        (PropType.mk "ext" PyType.int "y") ∧
    (register (mkTypeExtenser "ext" sampleCorn []) "y" PyType.int
        Option.none Option.none).1.named_convertors =
      (mkTypeExtenser "ext" sampleCorn []).named_convertors :=
  C9_register_nonatomic (mkTypeExtenser "ext" sampleCorn []) "y" PyType.int
    Option.none (PropType.mk "wrapped" (PyType.custom 0) "y") rfl rfl

/-- C7 (counterexample): two successful `register` calls for the same property
name `"x"` but different target types leave TWO entries in the binding table —
the first call's pair, keyed by the stale `Type(corn, datetime, "x")`, is still
there, refuting "the binding table holds exactly one converter pair for that
property ... no entry from the first call remains". -/
theorem C7_counterexample :
    (register (mkTypeExtenser "ext" sampleCorn []) "x" PyType.datetime
        Option.none Option.none).2 = Option.none ∧
    (register (register (mkTypeExtenser "ext" sampleCorn []) "x" PyType.datetime
        Option.none Option.none).1 "x" PyType.int Option.none Option.none).2 =
      Option.none ∧
    (register (register (mkTypeExtenser "ext" sampleCorn []) "x" PyType.datetime
        Option.none Option.none).1 "x" PyType.int Option.none Option.none).1.named_convertors =
      [(PropType.mk "ext" PyType.datetime "x",
        Converter.mk ConvFun.to_unicode ConvFun.to_datetime),
       (PropType.mk "ext" PyType.int "x",
        Converter.mk ConvFun.to_unicode ConvFun.to_number_int)] ∧
    (register (register (mkTypeExtenser "ext" sampleCorn []) "x" PyType.datetime
        Option.none Option.none).1 "x" PyType.int Option.none
        Option.none).1.named_convertors.length = 2 ∧
    (2 : Nat) ≠ 1 :=
  ⟨rfl, rfl, rfl, rfl, by decide⟩

/-- C7 (amended): after two successful `register` calls for the same property
name on a fresh decorator, the declaration table maps the name to the second
call's Property, and the binding-table lookup through that current declaration
yields the second call's pair — so subsequent conversions use only the newest
pair.  The first call's entry is removed only when both calls declare the same
target type; with different target types it remains in the table under the stale
Property key. -/
theorem C7_amended_reregistration :
    ∀ (E : TypeExtenser) (name : String) (t1 t2 : PyType)
      (cd1 cu1 cd2 cu2 : Option ConvFun),
      E.properties = [] → E.named_convertors = [] →
      (register E name t1 cd1 cu1).2 = Option.none →
      (register (register E name t1 cd1 cu1).1 name t2 cd2 cu2).2 = Option.none →
      ∃ pr1 pr2 : Converter,
        (register E name t1 cd1 cu1).1.named_convertors =
          [(PropType.mk E.name t1 name, pr1)] ∧
        dictGet (register (register E name t1 cd1 cu1).1 name t2 cd2 cu2).1.properties
          name = Option.some (PropType.mk E.name t2 name) ∧
        dictGet (register (register E name t1 cd1 cu1).1 name t2 cd2 cu2).1.named_convertors
          (PropType.mk E.name t2 name) = Option.some pr2 ∧
        (t1 = t2 →
          (register (register E name t1 cd1 cu1).1 name t2 cd2 cu2).1.named_convertors =
            [(PropType.mk E.name t2 name, pr2)]) ∧
        (t1 ≠ t2 →
          (register (register E name t1 cd1 cu1).1 name t2 cd2 cu2).1.named_convertors =
            [(PropType.mk E.name t1 name, pr1), (PropType.mk E.name t2 name, pr2)]) := by
  intro E name t1 t2 cd1 cu1 cd2 cu2 hp hn h1 h2
  have hr1 : register E name t1 cd1 cu1 =
      ((register E name t1 cd1 cu1).1, (register E name t1 cd1 cu1).2) :=
    Prod.mk.eta.symm
  rw [h1] at hr1
  obtain ⟨dc1, uc1, hE1⟩ := register_ok E name t1 cd1 cu1 _ hr1
  rw [hp, hn] at hE1
  simp only [dictSet] at hE1
  have hr2 : register (register E name t1 cd1 cu1).1 name t2 cd2 cu2 =
      ((register (register E name t1 cd1 cu1).1 name t2 cd2 cu2).1,
       (register (register E name t1 cd1 cu1).1 name t2 cd2 cu2).2) :=
    Prod.mk.eta.symm
  rw [h2] at hr2
  obtain ⟨dc2, uc2, hE2⟩ := register_ok _ name t2 cd2 cu2 _ hr2
  rw [hE1] at hE2
  dsimp only at hE2
  have hprops : dictSet [(name, PropType.mk E.name t1 name)] name
      (PropType.mk E.name t2 name) = [(name, PropType.mk E.name t2 name)] := by
    simp [dictSet]
  rw [hprops] at hE2
  refine ⟨Converter.mk dc1 uc1, Converter.mk dc2 uc2, ?_, ?_, ?_, ?_, ?_⟩
  · rw [hE1]
  · rw [hE1, hE2]
    simp [dictGet]
  · rw [hE1, hE2]
    dsimp only
    exact dictGet_dictSet_self _ _ _
  · intro ht
    subst ht
    rw [hE1, hE2]
    dsimp only
    simp [dictSet]
  · intro ht
    have hk : PropType.mk E.name t1 name ≠ PropType.mk E.name t2 name := by
      intro hc
      injection hc with hc1 hc2 hc3
      exact ht hc2
    rw [hE1, hE2]
    dsimp only
    simp [dictSet, hk]

/-- Witness for `C7_amended_reregistration` at a concrete fresh decorator with
two different target types. -/
theorem C7_amended_witness :
    ∃ pr1 pr2 : Converter,
      (register (mkTypeExtenser "ext" sampleCorn []) "x" PyType.datetime
          Option.none Option.none).1.named_convertors =
        [(PropType.mk "ext" PyType.datetime "x", pr1)] ∧
      dictGet (register (register (mkTypeExtenser "ext" sampleCorn []) "x"
          PyType.datetime Option.none Option.none).1 "x" PyType.int Option.none
          Option.none).1.properties "x" =
        Option.some (PropType.mk "ext" PyType.int "x") ∧
      dictGet (register (register (mkTypeExtenser "ext" sampleCorn []) "x"
          PyType.datetime Option.none Option.none).1 "x" PyType.int Option.none
          Option.none).1.named_convertors (PropType.mk "ext" PyType.int "x") =
        Option.some pr2 ∧
      (PyType.datetime = PyType.int →
        (register (register (mkTypeExtenser "ext" sampleCorn []) "x"
            PyType.datetime Option.none Option.none).1 "x" PyType.int Option.none
            Option.none).1.named_convertors =
          [(PropType.mk "ext" PyType.int "x", pr2)]) ∧
      (PyType.datetime ≠ PyType.int →
        (register (register (mkTypeExtenser "ext" sampleCorn []) "x"
            PyType.datetime Option.none Option.none).1 "x" PyType.int Option.none
            Option.none).1.named_convertors =
          [(PropType.mk "ext" PyType.datetime "x", pr1),
           (PropType.mk "ext" PyType.int "x", pr2)]) :=
  C7_amended_reregistration (mkTypeExtenser "ext" sampleCorn []) "x" PyType.datetime
    PyType.int Option.none Option.none Option.none Option.none rfl rfl rfl rfl

end Multicorn












